import Mathlib

/-!
Shallow embedding of the MyStudyLab teachers dashboard (a React client:
`src/App.tsx`, `src/pages/Login.tsx` (login view and exam-creation view),
`src/pages/Dashboard.tsx`).  View rendering is abstracted away; the embedded
objects are the zod validation schemas, the submit handlers (as functions from
form data and server responses to the requests issued, alerts shown, state
updates and navigation performed), the route guard, and the question
field-array state machine.
-/

namespace TeacherPortal

/-- A user as returned by `POST /auth/login` (`res.data.user`); only the
fields the client reads are modelled. -/
structure User where
  role : String
  name : String
deriving DecidableEq, Repr

/-- Modelled from the spec: the auth state store (`src/store/authStore`, not
included in the sources) holds the current bearer token and user identity. -/
structure AuthState where
  token : Option String
  user : Option User
deriving DecidableEq, Repr

/-- Modelled from the spec: the auth store's `login` mutator stores the
returned bearer token and user identity. -/
def AuthState.loginMut (_st : AuthState) (tok : String) (u : User) : AuthState :=
  { token := some tok, user := some u }

/-! ## Login form schema (`loginSchema`, Login.tsx lines 8-11)

`z.object({ email: z.string().email(...), password: z.string().min(6,...) })`.
The email validator is zod's email regular expression
`^(?!\.)(?!.*\.\.)([A-Z0-9_'+\-\.]*)[A-Z0-9_+\-]@([A-Z0-9][A-Z0-9\-]*\.)+[A-Z]{2,}$`
(case-insensitive), transcribed structurally below. -/

/-- Characters allowed anywhere in the local part of an email. -/
def isLocalPartChar (c : Char) : Bool :=
  c.isAlphanum || c = '_' || c.toNat = 39 || c = '+' || c = '-' || c = '.'

/-- Characters allowed as the last character of the local part. -/
def isLocalEndChar (c : Char) : Bool :=
  c.isAlphanum || c = '_' || c = '+' || c = '-'

/-- The `(?!.*\.\.)` lookahead: the string contains two consecutive dots. -/
def hasDoubleDot : List Char → Bool
  | '.' :: '.' :: _ => true
  | _ :: rest => hasDoubleDot rest
  | [] => false

/-- The local part: `(?!\.)([A-Z0-9_'+\-\.]*)[A-Z0-9_+\-]` — nonempty, not
starting with a dot, drawn from the local character set, ending in a
non-dot, non-apostrophe character. -/
def localOk : List Char → Bool
  | [] => false
  | c :: cs =>
    c ≠ '.' && (c :: cs).all isLocalPartChar &&
      (match (c :: cs).getLast? with
       | some l => isLocalEndChar l
       | none => false)

/-- A domain label `[A-Z0-9][A-Z0-9\-]*`. -/
def labelOk : List Char → Bool
  | [] => false
  | c :: cs => c.isAlphanum && cs.all (fun d => d.isAlphanum || d = '-')

/-- The top-level domain `[A-Z]{2,}`. -/
def tldOk (l : List Char) : Bool :=
  l.length ≥ 2 && l.all Char.isAlpha

/-- The domain `([A-Z0-9][A-Z0-9\-]*\.)+[A-Z]{2,}`: at least one label, a
dot, and the top-level domain. -/
def domainOk (cs : List Char) : Bool :=
  let labels := cs.splitOn '.'
  labels.length ≥ 2 &&
    (match labels.getLast? with
     | some tld => tldOk tld
     | none => false) &&
    labels.dropLast.all labelOk

/-- The validator `z.string().email(...)`: zod's email regular expression.  Exactly one
`@`, the whole string free of `..`, valid local part, valid domain. -/
def isEmail (s : String) : Bool :=
  match s.toList.splitOn '@' with
  | [l, d] => !hasDoubleDot s.toList && localOk l && domainOk d
  | _ => false

/-- The `loginSchema` parse (Login.tsx lines 8-11): `safeParse` succeeds iff the email
is well-formed and the password has at least 6 characters.  The submit
handler runs only on data that passes this schema. -/
def loginValidate (email password : String) : Bool :=
  isEmail email && password.length ≥ 6

/-! ## Login submit handler (`onSubmit`, Login.tsx lines 24-38) -/

/-- The observable outcome of a submit handler run: the alerts shown, the
resulting auth state, and the navigation performed (if any). -/
structure LoginResult where
  alerts : List String
  state : AuthState
  navigatedTo : Option String
deriving DecidableEq, Repr

/-- The login `onSubmit` handler (Login.tsx lines 24-38), given the auth state and the server's
response to `POST /auth/login`: `none` is a rejected request (the `catch`
branch), `some (tok, u)` a response with `access_token` `tok` and `user` `u`.
A non-`TEACHER` role alerts and returns; a `TEACHER` role is stored via the
auth store's `login` mutator and navigation to `/dashboard` follows. -/
def loginOnSubmit (st : AuthState) (resp : Option (String × User)) : LoginResult :=
  match resp with
  | none =>
      { alerts := ["Invalid Credentials"], state := st, navigatedTo := none }
  | some (tok, u) =>
      if u.role ≠ "TEACHER" then
        { alerts := ["Access Denied: Student accounts cannot access the dashboard."],
          state := st, navigatedTo := none }
      else
        { alerts := [], state := st.loginMut tok u, navigatedTo := some "/dashboard" }

/-! ## Router and route guard (`App`, `ProtectedRoute`; App.tsx / Dashboard.tsx
lines 102-118 of the variant that registers both protected routes) -/

/-- The screens the router can mount. -/
inductive Screen where
  | loginScreen
  | dashboardScreen
  | createExamScreen
deriving DecidableEq, Repr

/-- What the router renders for a path: a screen, or a `Navigate` redirect. -/
inductive RenderResult where
  | rendered (s : Screen)
  | redirect (path : String)
deriving DecidableEq, Repr

/-- JavaScript truthiness of the stored token, as tested by
`token ? children : <Navigate .../>`: absent and empty-string tokens are
falsy. -/
def tokenPresent : Option String → Bool
  | none => false
  | some t => !t.isEmpty

/-- The `ProtectedRoute` component (App.tsx lines 8-11): renders its child when the auth
store's token is truthy, else redirects to `/login`. -/
def protectedRoute (st : AuthState) (child : Screen) : RenderResult :=
  if tokenPresent st.token then .rendered child else .redirect "/login"

/-- The `App` route table (Dashboard.tsx lines 107-118): `/login` is open,
`/dashboard` and `/create-exam` are guarded, anything else redirects to
`/dashboard`. -/
def route (st : AuthState) (path : String) : RenderResult :=
  if path = "/login" then .rendered .loginScreen
  else if path = "/dashboard" then protectedRoute st .dashboardScreen
  else if path = "/create-exam" then protectedRoute st .createExamScreen
  else .redirect "/dashboard"

/-! ## Dashboard (Dashboard.tsx) -/

/-- A batch as returned by `GET /batches`. -/
structure Batch where
  _id : String
  name : String
  code : String
  students : List String
deriving DecidableEq, Repr

/-- A question row of the exam form (`examSchema.questions` element,
Login.tsx lines 112-117). -/
structure Question where
  text : String
  options : List String
  correctIndex : Int
  marks : Int
deriving DecidableEq, Repr

/-- The exam body sent by `POST /exams` (Login.tsx lines 185-192).
`startTime` is the string rendered by `new Date(...).toISOString()`; see
`toISOString`. -/
structure ExamBody where
  title : String
  batchId : String
  durationMinutes : Int
  startTime : String
  resourcePdfUrl : String
  questions : List Question
deriving DecidableEq, Repr

/-- An HTTP request issued by the client, with the body fields the code
sends. -/
inductive Request where
  | postLogin (email password : String)
  | getBatches
  | postBatches (name : String)
  | postUpload (fileSize : Nat)
  | postExams (body : ExamBody)
deriving DecidableEq, Repr

/-- The dashboard component state relevant to the claims: the `batches`
`useState` cell. -/
structure DashboardState where
  batches : List Batch
deriving DecidableEq, Repr

/-- The `fetchBatches` handler (Dashboard.tsx lines 23-30): issues `GET /batches` and
stores the response list.  `fetched` is the server's response. -/
def fetchBatches (fetched : List Batch) (_st : DashboardState) :
    List Request × DashboardState :=
  ([Request.getBatches], { batches := fetched })

/-- The `createBatch` handler (Dashboard.tsx lines 32-37): prompts for a name
(`promptResult` is `none` when the prompt is cancelled); a falsy result
(`!name`: cancelled or empty) returns without any request; otherwise
`POST /batches` with the name, then a refresh via `fetchBatches`. -/
def createBatch (promptResult : Option String) (fetched : List Batch)
    (st : DashboardState) : List Request × DashboardState :=
  match promptResult with
  | none => ([], st)
  | some name =>
      if name.isEmpty then ([], st)
      else
        let (reqs, st') := fetchBatches fetched st
        (Request.postBatches name :: reqs, st')

/-! ## Exam form schema (`examSchema`, Login.tsx lines 102-119) -/

/-- A file from a file input; only `size` is read by the schema. -/
structure JSFile where
  size : Nat
deriving DecidableEq, Repr

/-- The exam form values after resolution: `startTime` as the parsed instant
(milliseconds since the epoch, compared against `now`), `pdfFile` as the
optional `FileList`. -/
structure ExamFormValues where
  title : String
  batchId : String
  startTime : Int
  duration : Int
  pdfFile : Option (List JSFile)
  questions : List Question
deriving DecidableEq, Repr

/-- The `pdfFile` refinement (Login.tsx lines 109-111):
`!files || files.length === 0 || files[0].size <= 5000000`. -/
def pdfFileValid : Option (List JSFile) → Bool
  | none => true
  | some [] => true
  | some (f :: _) => f.size ≤ 5000000

/-- One element of `examSchema`'s `questions` array (Login.tsx lines
112-117): nonempty text, exactly four nonempty options, a correct index
between 0 and 3, marks at least 1. -/
def questionValid (q : Question) : Bool :=
  q.text.length ≥ 1 &&
  q.options.length = 4 && q.options.all (fun o => o.length ≥ 1) &&
  0 ≤ q.correctIndex && q.correctIndex ≤ 3 &&
  1 ≤ q.marks

/-- The `examSchema` parse (Login.tsx lines 102-119): the zod parse succeeds iff every
field constraint holds.  `now` is the instant `new Date()` in the
`startTime` refinement `new Date(val) > new Date()`. -/
def examValidate (now : Int) (d : ExamFormValues) : Bool :=
  d.title.length ≥ 3 &&
  d.batchId.length ≥ 1 &&
  now < d.startTime &&
  5 ≤ d.duration &&
  pdfFileValid d.pdfFile &&
  d.questions.all questionValid && d.questions.length ≥ 1

/-! ## Exam submit handler (`onSubmit`, Login.tsx lines 168-202) -/

/-- The conversion `Date.prototype.toISOString`, modelled as an injective rendering of the
underlying instant (milliseconds since the epoch).  The claims use only that
the submitted `startTime` is the image of the entered instant under this
map. -/
def toISOString (t : Int) : String := "ISO8601:" ++ toString t

/-- The guard `data.pdfFile && data.pdfFile.length > 0` (Login.tsx line 174). -/
def hasPdfAttached (d : ExamFormValues) : Bool :=
  match d.pdfFile with
  | some (_ :: _) => true
  | _ => false

/-- The `POST /exams` body built at Login.tsx lines 185-192 from the form
data and the `resourcePdfUrl` in scope. -/
def examBody (d : ExamFormValues) (resourcePdfUrl : String) : ExamBody :=
  { title := d.title
    batchId := d.batchId
    durationMinutes := d.duration
    startTime := toISOString d.startTime
    resourcePdfUrl := resourcePdfUrl
    questions := d.questions }

/-- The exam form `onSubmit` handler (Login.tsx lines 168-202), as the sequence of
requests issued on the happy path.  `uploadUrl` is the `url` field of the
`POST /upload` response.  A nonempty file list uploads the first file, then
creates the exam with the returned url; otherwise `resourcePdfUrl` stays
the empty string and no upload is issued. -/
def createExamSubmit (d : ExamFormValues) (uploadUrl : String) : List Request :=
  match d.pdfFile with
  | some (f :: _) =>
      [Request.postUpload f.size, Request.postExams (examBody d uploadUrl)]
  | _ => [Request.postExams (examBody d "")]

/-- The size of `data.pdfFile[0]`, the file appended to the upload form data
(Login.tsx line 176); 0 when no file is attached. -/
def firstFileSize (d : ExamFormValues) : Nat :=
  match d.pdfFile with
  | some (f :: _) => f.size
  | _ => 0

/-- Recognises `POST /exams` requests. -/
def isPostExams : Request → Bool
  | .postExams _ => true
  | _ => false

/-- Recognises `POST /upload` requests. -/
def isPostUpload : Request → Bool
  | .postUpload _ => true
  | _ => false

/-! ## Question field array (`useFieldArray`, Login.tsx lines 140-158,
296-305, 359-365) -/

/-- The constant `defaultQuestion` (Login.tsx lines 123-128). -/
def defaultQuestion : Question :=
  { text := "", options := ["", "", "", ""], correctIndex := 0, marks := 1 }

/-- The form's initial question list (`defaultValues`, Login.tsx lines
148-151). -/
def initQuestions : List Question := [defaultQuestion]

/-- A UI interaction on the question list: the Add Question button, or the
per-question remove button. -/
inductive FieldAction where
  | appendQuestion
  | removeQuestion (i : Nat)
deriving DecidableEq, Repr

/-- The remove button for a question is rendered only when
`fields.length > 1` (Login.tsx line 296). -/
def removeEnabled (qs : List Question) : Bool := qs.length > 1

/-- One UI interaction on the question list: `append(defaultQuestion)`
(Login.tsx line 361) adds one question at the end; `remove(qIndex)` (line
299) erases that index, but its button exists only when `removeEnabled`, so
a removal on a singleton list is not reachable through the UI and leaves the
list unchanged. -/
def stepQuestions (qs : List Question) : FieldAction → List Question
  | .appendQuestion => qs ++ [defaultQuestion]
  | .removeQuestion i => if removeEnabled qs then qs.eraseIdx i else qs

/-! ## Error handling per operation (Login.tsx lines 24-38, 196-201;
Dashboard.tsx lines 23-37) -/

/-- The failing operations named by the spec's error-handling section. -/
inductive FailingOp where
  | loginRequest
  | batchListFetch
  | batchCreation
  | examCreation
deriving DecidableEq, Repr

/-- What a failure of one operation observably does. -/
structure FailureHandling where
  caught : Bool
  showsAlert : Bool
  alertMessage : Option String
  consoleTrace : Bool
deriving DecidableEq, Repr

/-- The failure path of each operation, transcribed from its handler:
login `catch` alerts Invalid Credentials (Login.tsx lines 35-37) with no
console trace; `fetchBatches` only logs `console.error('Failed to fetch
batches')` (Dashboard.tsx lines 27-29); `createBatch` has no `try`/`catch`
around its `POST /batches` (Dashboard.tsx lines 32-37), so the rejection is
neither alerted nor traced by the component; the exam `catch` both traces
and alerts (Login.tsx lines 196-199). -/
def onFailure : FailingOp → FailureHandling
  | .loginRequest =>
      { caught := true, showsAlert := true,
        alertMessage := some "Invalid Credentials", consoleTrace := false }
  | .batchListFetch =>
      { caught := true, showsAlert := false,
        alertMessage := none, consoleTrace := true }
  | .batchCreation =>
      { caught := false, showsAlert := false,
        alertMessage := none, consoleTrace := false }
  | .examCreation =>
      { caught := true, showsAlert := true,
        alertMessage := some "Failed to create exam. Please check your connection.",
        consoleTrace := true }

/-! ## Helper lemmas -/

/-- Propositional reading of `questionValid`. -/
theorem questionValid_eq_true_iff (q : Question) :
    questionValid q = true ↔
      1 ≤ q.text.length ∧ q.options.length = 4 ∧
      (∀ o ∈ q.options, 1 ≤ o.length) ∧
      0 ≤ q.correctIndex ∧ q.correctIndex ≤ 3 ∧ 1 ≤ q.marks := by
  simp [questionValid, List.all_eq_true, and_assoc]

/-- Propositional reading of `examValidate`. -/
theorem examValidate_eq_true_iff (now : Int) (d : ExamFormValues) :
    examValidate now d = true ↔
      3 ≤ d.title.length ∧ 1 ≤ d.batchId.length ∧ now < d.startTime ∧
      5 ≤ d.duration ∧ pdfFileValid d.pdfFile = true ∧
      (∀ q ∈ d.questions, questionValid q = true) ∧ 1 ≤ d.questions.length := by
  simp [examValidate, List.all_eq_true, and_assoc]

/-- A nonempty string is not the empty string. -/
theorem ne_empty_of_one_le_length {s : String} (h : 1 ≤ s.length) : s ≠ "" := by
  intro he; subst he; simp at h

/-- One question-list interaction keeps the list nonempty. -/
theorem stepQuestions_length_pos (qs : List Question) (a : FieldAction)
    (h : 1 ≤ qs.length) : 1 ≤ (stepQuestions qs a).length := by
  cases a with
  | appendQuestion => simp [stepQuestions]
  | removeQuestion i =>
      simp only [stepQuestions, removeEnabled]
      split
      · next hlen =>
          have := List.length_eraseIdx qs i
          simp only [decide_eq_true_eq] at hlen
          by_cases hi : i < qs.length <;> simp [hi] at this <;> omega
      · exact h

/-- Any run of question-list interactions started from a nonempty list keeps
it nonempty. -/
theorem foldl_stepQuestions_length_pos (acts : List FieldAction)
    (qs : List Question) (h : 1 ≤ qs.length) :
    1 ≤ (acts.foldl stepQuestions qs).length := by
  induction acts generalizing qs with
  | nil => exact h
  | cons a rest ih => exact ih _ (stepQuestions_length_pos qs a h)

/-! ## Sample inputs used by the witnesses -/

/-- A concrete valid question. -/
def sampleQuestion : Question :=
  { text := "What is heat?", options := ["a", "b", "c", "d"],
    correctIndex := 2, marks := 3 }

/-- A concrete exam form value without a PDF, valid at any instant before
100. -/
def examSample : ExamFormValues :=
  { title := "Unit 5", batchId := "b1", startTime := 100, duration := 60,
    pdfFile := none, questions := [sampleQuestion] }

/-- The same form value with one attached PDF of 42 bytes. -/
def examSamplePdf : ExamFormValues :=
  { examSample with pdfFile := some [⟨42⟩] }

/-! ## The claims -/

/-- C1: for every login response, a non-`TEACHER` role yields the
access-denied alert, leaves the auth state untouched and performs no
navigation; a `TEACHER` role stores the returned token and user and
navigates to `/dashboard`. -/
theorem login_submit_role_gate (st : AuthState) (tok : String) (u : User) :
    (u.role ≠ "TEACHER" →
      loginOnSubmit st (some (tok, u)) =
        { alerts := ["Access Denied: Student accounts cannot access the dashboard."],
          state := st, navigatedTo := none }) ∧
    (u.role = "TEACHER" →
      (loginOnSubmit st (some (tok, u))).alerts = [] ∧
      (loginOnSubmit st (some (tok, u))).state.token = some tok ∧
      (loginOnSubmit st (some (tok, u))).state.user = some u ∧
      (loginOnSubmit st (some (tok, u))).navigatedTo = some "/dashboard") := by
  constructor
  · intro h
    simp [loginOnSubmit, h]
  · intro h
    simp [loginOnSubmit, h, AuthState.loginMut]

/-- Witness for C1 at a student response and a teacher response. -/
theorem login_submit_role_gate_witness :
    (loginOnSubmit ⟨none, none⟩ (some ("t0", ⟨"STUDENT", "s"⟩)) =
      { alerts := ["Access Denied: Student accounts cannot access the dashboard."],
        state := ⟨none, none⟩, navigatedTo := none }) ∧
    (loginOnSubmit ⟨none, none⟩ (some ("t0", ⟨"TEACHER", "t"⟩))).state.token =
      some "t0" :=
  ⟨(login_submit_role_gate ⟨none, none⟩ "t0" ⟨"STUDENT", "s"⟩).1 (by decide),
   ((login_submit_role_gate ⟨none, none⟩ "t0" ⟨"TEACHER", "t"⟩).2 rfl).2.1⟩

/-- C2 counterexample: the dashboard's batch-list fetch failure shows no
alert (it only logs a console trace), and a batch-creation failure is
neither alerted nor traced, refuting that every failing operation results in
a modal alert. -/
theorem batch_failures_without_alert :
    (onFailure FailingOp.batchListFetch).showsAlert = false ∧
    (onFailure FailingOp.batchCreation).showsAlert = false ∧
    (onFailure FailingOp.batchCreation).consoleTrace = false := by
  decide

/-- C2 amended: login and exam-creation failures collapse to a modal alert
with a generic message; the batch-list fetch failure is only logged via a
console trace with no alert; batch-creation failures are not caught at all
(no alert, no console trace). -/
theorem failure_handling_per_operation :
    (onFailure FailingOp.loginRequest).caught = true ∧
    (onFailure FailingOp.loginRequest).showsAlert = true ∧
    (onFailure FailingOp.loginRequest).alertMessage = some "Invalid Credentials" ∧
    (onFailure FailingOp.loginRequest).consoleTrace = false ∧
    (onFailure FailingOp.examCreation).caught = true ∧
    (onFailure FailingOp.examCreation).showsAlert = true ∧
    (onFailure FailingOp.examCreation).alertMessage =
      some "Failed to create exam. Please check your connection." ∧
    (onFailure FailingOp.examCreation).consoleTrace = true ∧
    (onFailure FailingOp.batchListFetch).caught = true ∧
    (onFailure FailingOp.batchListFetch).showsAlert = false ∧
    (onFailure FailingOp.batchListFetch).consoleTrace = true ∧
    (onFailure FailingOp.batchCreation).caught = false ∧
    (onFailure FailingOp.batchCreation).showsAlert = false ∧
    (onFailure FailingOp.batchCreation).consoleTrace = false := by
  decide

/-- C7: the login schema rejects exactly the inputs whose email is not
well-formed (per zod's email check) or whose password is shorter than 6
characters; inputs satisfying both constraints pass. -/
theorem login_schema_shape (email password : String) :
    (isEmail email = false ∨ password.length < 6 →
      loginValidate email password = false) ∧
    (isEmail email = true → 6 ≤ password.length →
      loginValidate email password = true) := by
  constructor
  · rintro (h | h) <;> simp [loginValidate, h]
  · intro h1 h2
    simp [loginValidate, h1, h2]

/-- Witness for C7: a well-formed email with a long password passes; a
malformed email or a short password fails. -/
theorem login_schema_shape_witness :
    loginValidate "teacher@school.com" "secret1" = true ∧
    loginValidate "not-an-email" "secret1" = false ∧
    loginValidate "teacher@school.com" "abc" = false :=
  ⟨(login_schema_shape "teacher@school.com" "secret1").2 (by decide) (by decide),
   (login_schema_shape "not-an-email" "secret1").1 (Or.inl (by decide)),
   (login_schema_shape "teacher@school.com" "abc").1 (Or.inr (by decide))⟩

/-- C3: the exam schema rejects any input whose start time is not strictly
in the future, any input with a question whose options list is not of length
4, and any input with no questions; an input satisfying all schema
constraints is accepted. -/
theorem exam_schema_gate (now : Int) (d : ExamFormValues) :
    (d.startTime ≤ now → examValidate now d = false) ∧
    ((∃ q ∈ d.questions, q.options.length ≠ 4) → examValidate now d = false) ∧
    (d.questions = [] → examValidate now d = false) ∧
    (3 ≤ d.title.length → 1 ≤ d.batchId.length → now < d.startTime →
      5 ≤ d.duration → pdfFileValid d.pdfFile = true →
      (∀ q ∈ d.questions, questionValid q = true) → d.questions ≠ [] →
      examValidate now d = true) := by
  refine ⟨?_, ?_, ?_, ?_⟩
  · intro h
    rw [Bool.eq_false_iff]
    intro ht
    have hv := (examValidate_eq_true_iff now d).mp ht
    omega
  · rintro ⟨q, hq, hlen⟩
    rw [Bool.eq_false_iff]
    intro ht
    have hv := (examValidate_eq_true_iff now d).mp ht
    exact hlen ((questionValid_eq_true_iff q).mp (hv.2.2.2.2.2.1 q hq)).2.1
  · intro h
    rw [Bool.eq_false_iff]
    intro ht
    have hv := (examValidate_eq_true_iff now d).mp ht
    simp [h] at hv
  · intro h1 h2 h3 h4 h5 h6 h7
    refine (examValidate_eq_true_iff now d).mpr ⟨h1, h2, h3, h4, h5, h6, ?_⟩
    cases hq : d.questions with
    | nil => exact absurd hq h7
    | cons a l => simp [hq]

/-- Witness for C3: the sample form is accepted before its start time and
rejected at or after it, and rejected with an emptied question list. -/
theorem exam_schema_gate_witness :
    examValidate 50 examSample = true ∧
    examValidate 100 examSample = false ∧
    examValidate 50 { examSample with questions := [] } = false :=
  ⟨(exam_schema_gate 50 examSample).2.2.2 (by decide) (by decide) (by decide)
      (by decide) (by decide) (by decide) (by decide),
   (exam_schema_gate 100 examSample).1 (by decide),
   (exam_schema_gate 50 { examSample with questions := [] }).2.2.1 rfl⟩

/-- C6: every question of a form value accepted by the exam schema has
nonempty text, exactly four options each nonempty, a correct-option index
between 0 and 3 inclusive, and at least 1 mark. -/
theorem validated_question_shape (now : Int) (d : ExamFormValues)
    (q : Question) (hv : examValidate now d = true) (hq : q ∈ d.questions) :
    q.text ≠ "" ∧ q.options.length = 4 ∧ (∀ o ∈ q.options, o ≠ "") ∧
    0 ≤ q.correctIndex ∧ q.correctIndex ≤ 3 ∧ 1 ≤ q.marks := by
  have h := (questionValid_eq_true_iff q).mp
    (((examValidate_eq_true_iff now d).mp hv).2.2.2.2.2.1 q hq)
  exact ⟨ne_empty_of_one_le_length h.1, h.2.1,
    fun o ho => ne_empty_of_one_le_length (h.2.2.1 o ho),
    h.2.2.2.1, h.2.2.2.2.1, h.2.2.2.2.2⟩

/-- Witness for C6 at the sample form's question. -/
theorem validated_question_shape_witness :
    sampleQuestion.text ≠ "" ∧ sampleQuestion.options.length = 4 ∧
    (∀ o ∈ sampleQuestion.options, o ≠ "") ∧
    0 ≤ sampleQuestion.correctIndex ∧ sampleQuestion.correctIndex ≤ 3 ∧
    1 ≤ sampleQuestion.marks :=
  validated_question_shape 50 examSample sampleQuestion (by decide) (by decide)

/-- C4: every valid exam submission issues exactly one `POST /exams`, whose
body carries the entered title, batch id, duration, the ISO-rendered start
time and the questions; with a PDF attached the submission is the upload of
the first file followed by the exam creation using the upload response's
url; with no PDF no upload is issued and `resourcePdfUrl` is empty. -/
theorem create_exam_submit_requests (d : ExamFormValues) (url : String) :
    (∀ b, Request.postExams b ∈ createExamSubmit d url →
      b.title = d.title ∧ b.batchId = d.batchId ∧
      b.durationMinutes = d.duration ∧ b.startTime = toISOString d.startTime ∧
      b.questions = d.questions ∧
      b.resourcePdfUrl = (if hasPdfAttached d then url else "")) ∧
    ((createExamSubmit d url).filter isPostExams).length = 1 ∧
    (hasPdfAttached d = true →
      createExamSubmit d url =
        [Request.postUpload (firstFileSize d),
         Request.postExams (examBody d url)]) ∧
    (hasPdfAttached d = false →
      (createExamSubmit d url).filter isPostUpload = [] ∧
      createExamSubmit d url = [Request.postExams (examBody d "")]) := by
  rcases hpdf : d.pdfFile with _ | fs
  · refine ⟨?_, ?_, ?_, ?_⟩
    · intro b hb
      simp [createExamSubmit, hpdf] at hb
      subst hb
      simp [examBody, hasPdfAttached, hpdf]
    · simp [createExamSubmit, hpdf, isPostExams]
    · intro h
      simp [hasPdfAttached, hpdf] at h
    · intro _
      simp [createExamSubmit, hpdf, isPostUpload]
  · cases fs with
    | nil =>
        refine ⟨?_, ?_, ?_, ?_⟩
        · intro b hb
          simp [createExamSubmit, hpdf] at hb
          subst hb
          simp [examBody, hasPdfAttached, hpdf]
        · simp [createExamSubmit, hpdf, isPostExams]
        · intro h
          simp [hasPdfAttached, hpdf] at h
        · intro _
          simp [createExamSubmit, hpdf, isPostUpload]
    | cons f rest =>
        refine ⟨?_, ?_, ?_, ?_⟩
        · intro b hb
          simp [createExamSubmit, hpdf, isPostExams] at hb
          subst hb
          simp [examBody, hasPdfAttached, hpdf]
        · simp [createExamSubmit, hpdf, isPostExams]
        · intro _
          simp [createExamSubmit, hpdf, firstFileSize]
        · intro h
          simp [hasPdfAttached, hpdf] at h

/-- Witness for C4: the sample submission with an attached PDF uploads the
file, then creates the exam with the returned url; the sample without a PDF
issues only the exam creation with an empty `resourcePdfUrl`. -/
theorem create_exam_submit_requests_witness :
    createExamSubmit examSamplePdf "https://cdn/x.pdf" =
      [Request.postUpload (firstFileSize examSamplePdf),
       Request.postExams (examBody examSamplePdf "https://cdn/x.pdf")] ∧
    createExamSubmit examSample "https://cdn/x.pdf" =
      [Request.postExams (examBody examSample "")] :=
  ⟨(create_exam_submit_requests examSamplePdf "https://cdn/x.pdf").2.2.1 rfl,
   ((create_exam_submit_requests examSample "https://cdn/x.pdf").2.2.2 rfl).2⟩

/-- C5: with no (truthy) token in the auth store both protected paths
redirect to `/login`; with a token present both render their screens. -/
theorem route_guard (st : AuthState) :
    (tokenPresent st.token = false →
      route st "/dashboard" = RenderResult.redirect "/login" ∧
      route st "/create-exam" = RenderResult.redirect "/login") ∧
    (tokenPresent st.token = true →
      route st "/dashboard" = RenderResult.rendered Screen.dashboardScreen ∧
      route st "/create-exam" = RenderResult.rendered Screen.createExamScreen) := by
  constructor <;> intro h <;>
    simp [route, protectedRoute, h]

/-- Witness for C5 at an empty store and at a store holding a token. -/
theorem route_guard_witness :
    route ⟨none, none⟩ "/dashboard" = RenderResult.redirect "/login" ∧
    route ⟨some "tok", none⟩ "/create-exam" =
      RenderResult.rendered Screen.createExamScreen :=
  ⟨((route_guard ⟨none, none⟩).1 rfl).1,
   ((route_guard ⟨some "tok", none⟩).2 (by decide)).2⟩

/-- C8: a cancelled prompt or an empty name issues no request and leaves the
batch list unchanged; otherwise exactly `POST /batches` with the entered
name is issued, followed by the `GET /batches` refresh that replaces the
list. -/
theorem create_batch_flow (promptResult : Option String)
    (fetched : List Batch) (st : DashboardState) :
    (promptResult = none ∨ promptResult = some "" →
      createBatch promptResult fetched st = ([], st)) ∧
    (∀ name, promptResult = some name → name ≠ "" →
      createBatch promptResult fetched st =
        ([Request.postBatches name, Request.getBatches],
         { batches := fetched })) := by
  constructor
  · rintro (h | h) <;> subst h <;> rfl
  · intro name hp hname
    subst hp
    simp [createBatch, fetchBatches, String.isEmpty_iff, hname]

/-- Witness for C8 at a cancelled prompt, an empty name, and a real name. -/
theorem create_batch_flow_witness :
    createBatch none [] ⟨[]⟩ = ([], ⟨[]⟩) ∧
    createBatch (some "") [] ⟨[]⟩ = ([], ⟨[]⟩) ∧
    createBatch (some "2026 Revision") [] ⟨[]⟩ =
      ([Request.postBatches "2026 Revision", Request.getBatches],
       { batches := [] }) :=
  ⟨(create_batch_flow none [] ⟨[]⟩).1 (Or.inl rfl),
   (create_batch_flow (some "") [] ⟨[]⟩).1 (Or.inr rfl),
   (create_batch_flow (some "2026 Revision") [] ⟨[]⟩).2 "2026 Revision" rfl
     (by decide)⟩

/-- C9: the question list starts as exactly one default question, appending
adds one question, the remove control is inert (not rendered) whenever the
list does not hold more than one question, and every sequence of UI
interactions leaves the list nonempty. -/
theorem question_list_nonempty :
    initQuestions = [defaultQuestion] ∧
    (∀ qs, (stepQuestions qs FieldAction.appendQuestion).length =
      qs.length + 1) ∧
    (∀ qs i, removeEnabled qs = false →
      stepQuestions qs (FieldAction.removeQuestion i) = qs) ∧
    (∀ acts : List FieldAction,
      1 ≤ (acts.foldl stepQuestions initQuestions).length) := by
  refine ⟨rfl, ?_, ?_, ?_⟩
  · intro qs
    simp [stepQuestions]
  · intro qs i h
    simp [stepQuestions, h]
  · intro acts
    exact foldl_stepQuestions_length_pos acts initQuestions (by decide)

/-- Witness for C9: removing from the initial singleton list is inert, and
an append followed by two removals still leaves a question. -/
theorem question_list_nonempty_witness :
    stepQuestions initQuestions (FieldAction.removeQuestion 0) =
      initQuestions ∧
    1 ≤ ([FieldAction.appendQuestion, FieldAction.removeQuestion 0,
          FieldAction.removeQuestion 0].foldl
            stepQuestions initQuestions).length :=
  ⟨question_list_nonempty.2.2.1 initQuestions 0 (by decide),
   question_list_nonempty.2.2.2 [FieldAction.appendQuestion,
     FieldAction.removeQuestion 0, FieldAction.removeQuestion 0]⟩

/-- C10: the PDF field passes when absent or when the file list is empty,
and a present file passes exactly when its size is at most 5,000,000
bytes. -/
theorem pdf_field_gate :
    pdfFileValid none = true ∧
    pdfFileValid (some []) = true ∧
    (∀ (f : JSFile) (rest : List JSFile),
      pdfFileValid (some (f :: rest)) = true ↔ f.size ≤ 5000000) := by
  refine ⟨rfl, rfl, ?_⟩
  intro f rest
  simp [pdfFileValid]

/-- Witness for C10 at the size boundary. -/
theorem pdf_field_gate_witness :
    pdfFileValid (some [⟨5000000⟩]) = true ∧
    ¬ pdfFileValid (some [⟨5000001⟩]) = true :=
  ⟨(pdf_field_gate.2.2 ⟨5000000⟩ []).mpr (by decide),
   fun h => absurd ((pdf_field_gate.2.2 ⟨5000001⟩ []).mp h) (by decide)⟩

end TeacherPortal
